import Mathlib

/-!
Verification of the r4bbit RPC server layer: a shallow embedding of the
topology cache (`ConnectionSet` in `Common/cache/cache.ts`), the `Server`
class (`Server/server.ts`: `registerRoute`, `registerRPCRoute`, the bound
`reply` closure, and the `getServer` singleton factory).

Broker interactions are modelled as an explicit trace of `Event`s emitted by
each operation; fallible broker calls take their outcome as an explicit
parameter. Collaborators that live outside the embedded files
(`encodeMessage`, `prepareHeaders`, `prepareResponse`, `extractAndSetReqId`)
are modelled from the spec and marked as such in their doc comments.
-/

/-- Broker-visible and logger-visible effects, in program order. -/
inductive Event where
  | assertExchange (exchange : String) (kind : String)
  | assertQueue (queue : String)
  | bindQueue (queue : String) (exchange : String) (routingKey : String)
  | publish (success : Bool) (exchange : String) (routingKey : String)
      (body : String × Option String) (correlationId : String)
      (signature : Option String) (receiveType : Option String)
      (requestId : Option String)
  | ack
  | nack
  | consume (queue : String)
  | infoLog (actor : String) (action : String) (topic : String)
  | errorLog (actor : String) (action : String) (topic : String)
deriving DecidableEq, Repr

/-! ## Topology cache: `ConnectionSet` (Common/cache/cache.ts) -/

/-- The static `connectionSet : Set<string>` of `ConnectionSet`, made an
explicit value. Membership is the only operation used. -/
abbrev Cache := List String

namespace ConnectionSet

/-- `ConnectionSet.serialize`: the template string
`${exchange}-*-${queue}-*-${routingKey}`. -/
def serialize (exchange : String) (queue : String := "") (routingKey : String := "") : String :=
  exchange ++ "-*-" ++ queue ++ "-*-" ++ routingKey

/-- `ConnectionSet.isCacheHit`: membership of the serialized key. -/
def isCacheHit (c : Cache) (exchange : String) (queue : String := "")
    (routingKey : String := "") : Bool :=
  decide (serialize exchange queue routingKey ∈ c)

/-- `ConnectionSet.setCache`: `Set.add` of the serialized key. -/
def setCache (c : Cache) (exchange : String) (queue : String := "")
    (routingKey : String := "") : Cache :=
  if serialize exchange queue routingKey ∈ c then c
  else serialize exchange queue routingKey :: c

/-- `ConnectionSet.assert`: on a cache miss it asserts the exchange (type
`topic`), and, when `queue` is truthy (non-empty), asserts the queue and binds
it, then `return`s; `setCache` is executed only on the already-cached branch.
Returns the updated cache and the trace of broker calls. -/
def assert (c : Cache) (exchange : String) (queue : String := "")
    (routingKey : String := "") : Cache × List Event :=
  if ¬ isCacheHit c exchange queue routingKey then
    (c,
      Event.assertExchange exchange "topic" ::
        (if queue ≠ "" then
          [Event.assertQueue queue, Event.bindQueue queue exchange routingKey]
        else []))
  else
    (setCache c exchange queue routingKey, [])

end ConnectionSet

/-! ## Messages, headers, collaborators (Server/server.ts imports) -/

/-- Modelled from the spec: the request header carrying the trace id is
named `X-Request-Id`. -/
def HEADER_REQUEST_ID : String := "X-Request-Id"

/-- Modelled from the spec: the header key of the receive-type tag
(`HEADER_RECEIVE_TYPE` from `Common/types`, whose literal value is not in
scope; only its role as a fixed header key matters). -/
def HEADER_RECEIVE_TYPE : String := "receiveType"

/-- `amqplib` message properties, restricted to the fields the embedded code
reads: `replyTo`, `correlationId` and the header table. -/
structure MessageProperties where
  replyTo : String
  correlationId : String
  headers : List (String × String)
deriving DecidableEq, Repr

/-- An inbound `ConsumeMessage`: properties plus an abstract payload. -/
structure ConsumeMessage where
  properties : MessageProperties
  content : String
deriving DecidableEq, Repr

/-- Modelled from the spec: the Encoder collaborator
`encode(value, typeTag) -> bytes` is a pure total function; an encoded body
is represented by the pair of its arguments. -/
def encodeMessage (value : String) (receiveType : Option String) :
    String × Option String :=
  (value, receiveType)

/-- Modelled from the spec: the trace-id propagator
`extractOrGenerate(headers) -> id` returns the `X-Request-Id` header when
present and otherwise a generated id. -/
def extractAndSetReqId (headers : List (String × String)) : String :=
  (List.lookup HEADER_REQUEST_ID headers).getD "generated-request-id"

/-- The `responseContains` field-selection policy; each field is optional in
the source options object, so absence is distinguished from `false`. -/
structure ResponseContains where
  content : Option Bool
  headers : Option Bool
  signature : Option Bool
deriving DecidableEq, Repr

/-- The empty object obtained by spreading an absent `responseContains`. -/
def emptyResponseContains : ResponseContains := ⟨none, none, none⟩

/-- Modelled from the spec: the `ResponseView` surfaced to application code,
a subset of payload content, headers and responder signature; unselected
fields are omitted (`none`). -/
structure ResponseView where
  content : Option String
  headers : Option (List (String × String))
  signature : Option String
deriving DecidableEq, Repr

/-- Modelled from the spec: `prepareResponse` (the Reply Decoder/Filter)
selects the fields of the raw message named by the policy; defaults are
`content = true`, `headers = false`, `signature = false`; the signature is
read from the `signature` header. -/
def prepareResponse (msg : ConsumeMessage) (rc : ResponseContains) : ResponseView :=
  { content := if rc.content.getD true then some msg.content else none
    headers := if rc.headers.getD false then some msg.properties.headers else none
    signature :=
      if rc.signature.getD false then List.lookup "signature" msg.properties.headers
      else none }

/-- The `ServerRPCOptions` fields the embedded code reads. `consumeOptions`,
`publishOptions` and `loggerOptions` only tune collaborators and are not
modelled. -/
structure ServerRPCOptions where
  responseContains : Option ResponseContains
  replySignature : Option String
deriving DecidableEq, Repr

/-- The `connection` argument of `registerRoute` / `registerRPCRoute`. -/
structure ServerConnection where
  exchangeName : String
  queueName : String
  routingKey : String
deriving DecidableEq, Repr

/-- Errors surfaced by the server operations: `invalidState` for the
`throw new Error(...)` guards, `broker` for rethrown broker-level errors. -/
inductive SrvError where
  | invalidState (msg : String)
  | broker (msg : String)
deriving DecidableEq, Repr

/-! ## The bound `reply` closure (Server/server.ts, registerRPCRoute) -/

/-- The context the `reply` arrow function closes over: `this.channelWrapper`
(present or not), the route's `exchangeName` and `routingKey`, and `options`.
`publishOk` stands for the outcome of the awaited
`this.channelWrapper.publish` broker call. -/
structure RpcRouteCtx where
  hasChannel : Bool
  exchangeName : String
  queueName : String
  routingKey : String
  options : Option ServerRPCOptions
deriving DecidableEq, Repr

/-- The bound `reply` operation: fails fast when the channel wrapper is unset
or the consumed message is `null`; otherwise logs, publishes the encoded
reply to `replyTo` with the original `correlationId` and the prepared
headers, and acknowledges the original message; a publish failure is caught,
logged, and not rethrown. Returns the outcome seen by the handler and the
event trace. -/
def reply (ctx : RpcRouteCtx) (publishOk : Bool)
    (consumedMessage : Option ConsumeMessage) (replyMessage : String) :
    Except SrvError Unit × List Event :=
  if ¬ ctx.hasChannel then
    (Except.error (SrvError.invalidState "You have to trigger init method first"), [])
  else
    match consumedMessage with
    | none =>
        (Except.error (SrvError.invalidState "Consume message cannot be null"), [])
    | some m =>
        let replyTo := m.properties.replyTo
        let correlationId := m.properties.correlationId
        let receiveType := List.lookup HEADER_RECEIVE_TYPE m.properties.headers
        let reqId := extractAndSetReqId m.properties.headers
        let headerSignature := ctx.options.bind ServerRPCOptions.replySignature
        let logEv := Event.infoLog "Rpc Server" "publish" replyTo
        if publishOk then
          (Except.ok (),
            [logEv,
             Event.publish true ctx.exchangeName replyTo
               (encodeMessage replyMessage receiveType) correlationId
               headerSignature receiveType (some reqId),
             Event.ack])
        else
          (Except.ok (),
            [logEv,
             Event.publish false ctx.exchangeName replyTo
               (encodeMessage replyMessage receiveType) correlationId
               headerSignature receiveType (some reqId),
             Event.errorLog "Rpc Server" "publish" ctx.routingKey])

/-- The trace of handing the bound `reply` operation to a handler that
invokes it once per element of `replyMessages` (all invocations seeing the
same publish outcome), concatenated in invocation order. -/
def replyInvocations (ctx : RpcRouteCtx) (publishOk : Bool)
    (consumedMessage : Option ConsumeMessage) (replyMessages : List String) :
    List Event :=
  (replyMessages.map (fun v => (reply ctx publishOk consumedMessage v).2)).flatten

/-- Counts the publish attempts in a trace. -/
def countPublish (t : List Event) : Nat :=
  t.countP (fun e =>
    match e with
    | Event.publish _ _ _ _ _ _ _ _ => true
    | _ => false)

/-- Counts the acknowledgments in a trace. -/
def countAck (t : List Event) : Nat :=
  t.countP (fun e =>
    match e with
    | Event.ack => true
    | _ => false)

/-- `true` when, scanning the trace from the front, no acknowledgment occurs
before the first successful publish. -/
def acksOnlyAfterSuccess : List Event → Bool
  | [] => true
  | Event.ack :: _ => false
  | Event.publish true _ _ _ _ _ _ _ :: _ => true
  | _ :: rest => acksOnlyAfterSuccess rest

/-! ## Inbound decode policy of registerRPCRoute -/

/-- The policy object `{ ...options?.responseContains, signature: false }`
built inside the RPC consume callback: spreading an absent
`responseContains` yields the empty object, and the `signature` property is
then set to the literal `false`. -/
def rpcInboundPolicy (responseContains : Option ResponseContains) : ResponseContains :=
  { responseContains.getD emptyResponseContains with signature := some false }

/-- The per-message decode step of the RPC consume callback:
`prepareResponse(consumeMessage, { ...options?.responseContains,
signature: false })`. -/
def rpcOnMessageView (options : Option ServerRPCOptions) (msg : ConsumeMessage) :
    ResponseView :=
  prepareResponse msg (rpcInboundPolicy (options.bind ServerRPCOptions.responseContains))

/-! ## registerRoute / registerRPCRoute error flow (Server/server.ts) -/

/-- `Server.registerRoute`: after the channel-wrapper guard, the `try` block
runs `ConnectionSet.assert` and then `consume`; both awaited broker calls are
abstracted by their outcomes (`assertOutcome`, `consumeOutcome`). Any error
raised inside the `try` is logged with actor `Server` and rethrown. Returns
the outcome seen by the caller and the event trace. -/
def registerRoute (hasChannel : Bool) (conn : ServerConnection)
    (assertOutcome : Except String Unit) (consumeOutcome : Except String Unit) :
    Except SrvError Unit × List Event :=
  if ¬ hasChannel then
    (Except.error (SrvError.invalidState "You have to trigger init method first"), [])
  else
    match assertOutcome with
    | Except.error e =>
        (Except.error (SrvError.broker e),
         [Event.errorLog "Server" "receive" conn.routingKey])
    | Except.ok () =>
        match consumeOutcome with
        | Except.error e =>
            (Except.error (SrvError.broker e),
             [Event.errorLog "Server" "receive" conn.routingKey])
        | Except.ok () => (Except.ok (), [Event.consume conn.queueName])

/-- `Server.registerRPCRoute`: after the channel-wrapper guard,
`ConnectionSet.assert` is awaited OUTSIDE the `try` block (its error
propagates unlogged), while the `try` wraps only `consume`; an error there is
logged with actor `Rpc Server` and NOT rethrown, so the operation still
resolves successfully. -/
def registerRPCRoute (hasChannel : Bool) (conn : ServerConnection)
    (assertOutcome : Except String Unit) (consumeOutcome : Except String Unit) :
    Except SrvError Unit × List Event :=
  if ¬ hasChannel then
    (Except.error (SrvError.invalidState "You have to trigger init method first"), [])
  else
    match assertOutcome with
    | Except.error e => (Except.error (SrvError.broker e), [])
    | Except.ok () =>
        match consumeOutcome with
        | Except.error _e =>
            (Except.ok (),
             [Event.errorLog "Rpc Server" "receive" conn.routingKey])
        | Except.ok () => (Except.ok (), [Event.consume conn.queueName])

/-! ## getServer singleton factory (Server/server.ts, module level) -/

/-- The arguments of one `getServer` call: `connectionUrls` (one url or an
array) and the optional init options, both kept abstract. -/
structure GetServerArgs where
  connectionUrls : List String
  options : Option String
deriving DecidableEq, Repr

/-- A `Server` instance, observed through the `init` calls it has received
(each recorded with its arguments). `new Server()` has received none. -/
structure ServerModel where
  initCalls : List GetServerArgs
deriving DecidableEq, Repr

/-- `new Server()`. -/
def ServerModel.new : ServerModel := ⟨[]⟩

/-- `server.init(connectionUrls, options)`: records the invocation. -/
def ServerModel.initModel (s : ServerModel) (a : GetServerArgs) : ServerModel :=
  ⟨s.initCalls ++ [a]⟩

/-- `getServer`: the module-level `let server` cell is the explicit state; on
a falsy cell a fresh instance is constructed, `init`ed with the call's
arguments and stored; otherwise the stored instance is returned and the
arguments are unused. -/
def getServer (state : Option ServerModel) (a : GetServerArgs) :
    Option ServerModel × ServerModel :=
  match state with
  | none =>
      let s := ServerModel.new.initModel a
      (some s, s)
  | some s => (some s, s)

/-- Runs a sequence of `getServer` calls, threading the module-level cell and
collecting the returned instances in call order. -/
def runGetServer (state : Option ServerModel) :
    List GetServerArgs → Option ServerModel × List ServerModel
  | [] => (state, [])
  | a :: rest =>
      let step := getServer state a
      let next := runGetServer step.1 rest
      (next.1, step.2 :: next.2)

/-! ## Shared concrete data for counterexamples and witnesses -/

/-- A concrete RPC route context with a live channel wrapper. -/
def sampleCtx : RpcRouteCtx := ⟨true, "ex", "q", "rk", none⟩

/-- A concrete inbound RPC message. -/
def sampleMsg : ConsumeMessage := ⟨⟨"replyQueue", "corr-1", []⟩, "request-body"⟩

/-! ## Theorems -/

/-- Claim C1, evaluated at the failing input: starting from an empty cache,
the first `ConnectionSet.assert` for the key `("ex","q","rk")` declares the
exchange, queue and binding but leaves the cache EMPTY (the miss branch
returns before `setCache`, which only runs on the already-cached branch), so
the second call for the very same key issues all three declare/bind broker
calls again, contrary to the claimed idempotence. -/
theorem connectionSet_assert_never_caches :
    (ConnectionSet.assert [] "ex" "q" "rk").1 = [] ∧
    (ConnectionSet.assert [] "ex" "q" "rk").2 =
      [Event.assertExchange "ex" "topic", Event.assertQueue "q",
       Event.bindQueue "q" "ex" "rk"] ∧
    (ConnectionSet.assert (ConnectionSet.assert [] "ex" "q" "rk").1 "ex" "q" "rk").2 =
      [Event.assertExchange "ex" "topic", Event.assertQueue "q",
       Event.bindQueue "q" "ex" "rk"] := by
  refine ⟨rfl, rfl, rfl⟩

/-- Claim C9: the cache key serialization is not injective: the distinct
triples `("a-*-b","c","")` and `("a","b-*-c","")` serialize identically, so
`setCache` on the first makes `isCacheHit` answer true for the second, and
`ConnectionSet.assert` for the second then skips every declare/bind call. -/
theorem connectionSet_serialize_not_injective :
    ConnectionSet.serialize "a-*-b" "c" "" = ConnectionSet.serialize "a" "b-*-c" "" ∧
    (("a-*-b", "c", "") : String × String × String) ≠ ("a", "b-*-c", "") ∧
    ConnectionSet.isCacheHit (ConnectionSet.setCache [] "a-*-b" "c" "") "a" "b-*-c" "" = true ∧
    (ConnectionSet.assert (ConnectionSet.setCache [] "a-*-b" "c" "") "a" "b-*-c" "").2 = [] := by
  refine ⟨by decide, by decide, by decide, by decide⟩

/-- Helper: one successful `reply` invocation on a live channel with a
non-null message contributes exactly one publish and one ack to the trace. -/
theorem reply_success_trace_counts (ex qn rk : String)
    (opts : Option ServerRPCOptions) (m : ConsumeMessage) (v : String) :
    countPublish (reply ⟨true, ex, qn, rk, opts⟩ true (some m) v).2 = 1 ∧
    countAck (reply ⟨true, ex, qn, rk, opts⟩ true (some m) v).2 = 1 :=
  ⟨rfl, rfl⟩

/-- Helper: `replyInvocations` over a list of reply values concatenates the
single-invocation traces. -/
theorem replyInvocations_cons (ctx : RpcRouteCtx) (ok : Bool)
    (om : Option ConsumeMessage) (v : String) (vs : List String) :
    replyInvocations ctx ok om (v :: vs) =
      (reply ctx ok om v).2 ++ replyInvocations ctx ok om vs := by
  simp [replyInvocations]

/-- Helper: n successful invocations of the same bound reply yield exactly n
publishes and n acks. -/
theorem replyInvocations_replicate_counts (ex qn rk : String)
    (opts : Option ServerRPCOptions) (m : ConsumeMessage) (v : String) :
    ∀ n : Nat,
      countPublish
        (replyInvocations ⟨true, ex, qn, rk, opts⟩ true (some m) (List.replicate n v)) = n ∧
      countAck
        (replyInvocations ⟨true, ex, qn, rk, opts⟩ true (some m) (List.replicate n v)) = n
  | 0 => ⟨rfl, rfl⟩
  | n + 1 => by
      have ih := replyInvocations_replicate_counts ex qn rk opts m v n
      simp [List.replicate_succ, replyInvocations_cons, countPublish, countAck,
        List.countP_append] at ih ⊢
      constructor
      · have h1 := (reply_success_trace_counts ex qn rk opts m v).1
        simp [countPublish] at h1
        omega
      · have h2 := (reply_success_trace_counts ex qn rk opts m v).2
        simp [countAck] at h2
        omega

/-- Claim C2 is false as stated: the bound reply operation has no one-shot
guard — at the concrete context `sampleCtx` and inbound message `sampleMsg`,
a handler that invokes it twice produces two reply publishes and two
acknowledgments of the original message, not at most one. -/
theorem reply_not_one_shot_cex :
    ¬ countPublish (replyInvocations sampleCtx true (some sampleMsg) ["v", "v"]) ≤ 1 ∧
    countAck (replyInvocations sampleCtx true (some sampleMsg) ["v", "v"]) = 2 := by
  refine ⟨by decide, by decide⟩

/-- Claim C2 (amended): every single invocation of the bound reply operation
performs at most one reply publish and at most one acknowledgment, but the
operation is not guarded against re-invocation: n invocations with
successful publishes produce exactly n publishes and n acknowledgments. -/
theorem reply_per_invocation_at_most_one (ctx : RpcRouteCtx) (ok : Bool)
    (om : Option ConsumeMessage) (v : String) (ex qn rk : String)
    (opts : Option ServerRPCOptions) (m : ConsumeMessage) (n : Nat) :
    countPublish (reply ctx ok om v).2 ≤ 1 ∧
    countAck (reply ctx ok om v).2 ≤ 1 ∧
    countPublish
      (replyInvocations ⟨true, ex, qn, rk, opts⟩ true (some m) (List.replicate n v)) = n ∧
    countAck
      (replyInvocations ⟨true, ex, qn, rk, opts⟩ true (some m) (List.replicate n v)) = n := by
  obtain ⟨h1, h2⟩ := replyInvocations_replicate_counts ex qn rk opts m v n
  refine ⟨?_, ?_, h1, h2⟩ <;>
    rcases ctx with ⟨hc, cex, cqn, crk, copts⟩ <;>
      cases hc <;> rcases om with _ | m2 <;> cases ok <;>
        simp [reply, countPublish, countAck]

/-- Claim C3: on the RPC route the acknowledgment is coupled to a successful
reply publish: when the publish raises, no ack appears in the trace, and in
every trace of the bound reply operation no ack precedes a successful
publish. -/
theorem reply_ack_only_after_successful_publish (ctx : RpcRouteCtx)
    (om : Option ConsumeMessage) (v : String) (ok : Bool) :
    Event.ack ∉ (reply ctx false om v).2 ∧
    acksOnlyAfterSuccess (reply ctx ok om v).2 = true := by
  rcases ctx with ⟨hc, cex, cqn, crk, copts⟩
  cases hc <;> rcases om with _ | m <;> cases ok <;>
    simp [reply, acksOnlyAfterSuccess]

/-- Claim C4: when the reply publish fails on a live channel with a non-null
inbound message, the error is logged and absorbed: the bound reply operation
still resolves successfully, and the original message is neither nacked nor
acked. -/
theorem reply_publish_failure_absorbed (ex qn rk : String)
    (opts : Option ServerRPCOptions) (m : ConsumeMessage) (v : String) :
    (reply ⟨true, ex, qn, rk, opts⟩ false (some m) v).1 = Except.ok () ∧
    Event.errorLog "Rpc Server" "publish" rk
      ∈ (reply ⟨true, ex, qn, rk, opts⟩ false (some m) v).2 ∧
    Event.nack ∉ (reply ⟨true, ex, qn, rk, opts⟩ false (some m) v).2 ∧
    Event.ack ∉ (reply ⟨true, ex, qn, rk, opts⟩ false (some m) v).2 := by
  simp [reply]

/-- Claim C5: for every broker-level error raised inside the guarded region,
`registerRoute` logs it (actor `Server`) and rethrows it, for both guarded
positions (topology assert and consume), while `registerRPCRoute` logs it
(actor `Rpc Server`) and resolves successfully. -/
theorem register_route_error_asymmetry (conn : ServerConnection) (e : String)
    (co : Except String Unit) :
    (registerRoute true conn (Except.error e) co).1 = Except.error (SrvError.broker e) ∧
    (registerRoute true conn (Except.ok ()) (Except.error e)).1 =
      Except.error (SrvError.broker e) ∧
    Event.errorLog "Server" "receive" conn.routingKey
      ∈ (registerRoute true conn (Except.ok ()) (Except.error e)).2 ∧
    (registerRPCRoute true conn (Except.ok ()) (Except.error e)).1 = Except.ok () ∧
    Event.errorLog "Rpc Server" "receive" conn.routingKey
      ∈ (registerRPCRoute true conn (Except.ok ()) (Except.error e)).2 := by
  simp [registerRoute, registerRPCRoute]

/-- Claim C6: invoking the bound reply operation with a null captured inbound
message fails fast with an invalid-state error and emits NO event at all: no
publish, no ack, no broker call of any kind. -/
theorem reply_null_message_fails_fast (ctx : RpcRouteCtx) (ok : Bool) (v : String) :
    ∃ s, reply ctx ok none v = (Except.error (SrvError.invalidState s), []) := by
  rcases ctx with ⟨hc, cex, cqn, crk, copts⟩
  cases hc <;> exact ⟨_, rfl⟩

/-- Claim C7: for a non-null inbound message on a live channel, the bound
reply operation publishes the value encoded with the receive-type header of
the original request, to the request's `replyTo` routing key, carrying the
original `correlationId`, and with a signature header equal to
`options.replySignature`. -/
theorem reply_publishes_correlated_response (ex qn rk : String)
    (opts : Option ServerRPCOptions) (m : ConsumeMessage) (v : String) (ok : Bool) :
    ∃ requestId,
      Event.publish ok ex m.properties.replyTo
        (encodeMessage v (List.lookup HEADER_RECEIVE_TYPE m.properties.headers))
        m.properties.correlationId
        (opts.bind ServerRPCOptions.replySignature)
        (List.lookup HEADER_RECEIVE_TYPE m.properties.headers)
        requestId
      ∈ (reply ⟨true, ex, qn, rk, opts⟩ ok (some m) v).2 := by
  cases ok <;>
    exact ⟨some (extractAndSetReqId m.properties.headers), by simp [reply]⟩

/-- Claim C8: the RPC consume callback decodes every inbound message with the
caller-supplied `responseContains` policy whose `signature` field is forced
to `false`, whatever value (absent, true or false) the caller supplied;
content and headers selections are preserved, and the resulting view never
carries a signature. -/
theorem rpc_inbound_signature_forced_false (o : Option ResponseContains)
    (opts : Option ServerRPCOptions) (msg : ConsumeMessage) :
    (rpcInboundPolicy o).signature = some false ∧
    (rpcInboundPolicy o).content = (o.getD emptyResponseContains).content ∧
    (rpcInboundPolicy o).headers = (o.getD emptyResponseContains).headers ∧
    rpcOnMessageView opts msg =
      prepareResponse msg
        (rpcInboundPolicy (opts.bind ServerRPCOptions.responseContains)) ∧
    (rpcOnMessageView opts msg).signature = none := by
  refine ⟨rfl, rfl, rfl, rfl, ?_⟩
  simp [rpcOnMessageView, prepareResponse, rpcInboundPolicy]

/-- Helper: once the module-level cell holds a server, every further
`getServer` call returns exactly that instance and leaves the cell unchanged. -/
theorem runGetServer_saturated (s : ServerModel) :
    ∀ calls : List GetServerArgs,
      runGetServer (some s) calls = (some s, List.replicate calls.length s)
  | [] => rfl
  | a :: rest => by
      simp [runGetServer, getServer, runGetServer_saturated s rest,
        List.replicate_succ]

/-- Claim C10: `getServer` is a memoized singleton: for every call sequence,
the first call constructs and inits the instance with its own arguments, and
every call (whatever its arguments) returns that same instance; the instance
records exactly one `init` invocation, with the first call's arguments. -/
theorem getServer_singleton (a : GetServerArgs) (calls : List GetServerArgs) :
    (runGetServer none (a :: calls)).1 = some (ServerModel.new.initModel a) ∧
    (runGetServer none (a :: calls)).2 =
      List.replicate (calls.length + 1) (ServerModel.new.initModel a) ∧
    (ServerModel.new.initModel a).initCalls = [a] := by
  refine ⟨?_, ?_, rfl⟩ <;>
    simp [runGetServer, getServer, runGetServer_saturated, List.replicate_succ]
